import Mathlib

/-!
Shallow embedding of `backend/services/spotify.py` (class `SpotifyService`).

Provider JSON payloads are modelled as Lean structures carrying exactly the
fields the code reads; `x.get(key, default)` accesses are modelled with
`Option` fields, direct subscripts with plain fields.  A provider call that
may raise is modelled as `Except String response` (the `String` is the
exception text that the code prints).  Each service method becomes a pure
function of the provider's responses; the `print` calls in the `except`
branches are modelled by companion `*_log` functions returning the list of
lines printed.
-/

namespace Spotify

/-- One entry of a provider `images` array; the code reads `images[0]['url']`. -/
structure Image where
  url : String
deriving Repr, DecidableEq

/-- One entry of a provider `artists` array; the code reads `artist['name']`. -/
structure ArtistObj where
  name : String
deriving Repr, DecidableEq

/-- The `item['album']` sub-object of a track item: the code reads
`name`, `id`, `images`, `.get('release_date', '')` and (in
`get_track_details`) `artists`. -/
structure AlbumRef where
  id : String
  name : String
  artists : List ArtistObj
  images : List Image
  release_date : Option String
deriving Repr, DecidableEq

/-- A provider track item as read by `search_tracks` / `get_track_details`:
`id`, `name`, `artists`, `album`, `duration_ms`, `external_urls['spotify']`,
`.get('preview_url')`, `.get('track_number', 1)`. -/
structure TrackItem where
  id : String
  name : String
  artists : List ArtistObj
  album : AlbumRef
  duration_ms : Nat
  external_url : String
  preview_url : Option String
  track_number : Option Nat
deriving Repr, DecidableEq

/-- The record built per item by `search_tracks` (note: no track number). -/
structure Track where
  id : String
  name : String
  artists : List String
  artist : String
  album : String
  album_id : String
  duration_ms : Nat
  external_url : String
  preview_url : Option String
  album_art : Option String
  release_date : String
deriving Repr, DecidableEq

/-- The record built by `get_track_details`. -/
structure TrackDetails where
  id : String
  name : String
  artists : List String
  artist : String
  album_artists : List String
  album_artist : String
  album : String
  album_id : String
  duration_ms : Nat
  external_url : String
  preview_url : Option String
  track_number : Nat
  album_art : Option String
  release_date : String
deriving Repr, DecidableEq

/-- A provider album item as read by `search_albums`. -/
structure AlbumItem where
  id : String
  name : String
  artists : List ArtistObj
  release_date : Option String
  total_tracks : Option Nat
  images : List Image
  external_url : String
deriving Repr, DecidableEq

/-- The record built per item by `search_albums`. -/
structure Album where
  id : String
  name : String
  artist : String
  artists : List String
  release_date : String
  total_tracks : Nat
  album_art : Option String
  external_url : String
deriving Repr, DecidableEq

/-- A provider item of an album track listing (`album['tracks']['items']` or a
page from `client.album_tracks`): the code reads `id`, `name`, `artists`,
`duration_ms`, `track_number`, `external_urls['spotify']`,
`.get('preview_url')`. -/
structure AlbumTrackItem where
  id : String
  name : String
  artists : List ArtistObj
  duration_ms : Nat
  track_number : Nat
  external_url : String
  preview_url : Option String
deriving Repr, DecidableEq

/-- The per-track record built by `get_album_details` (album-level fields are
copied from the parent album response). -/
structure AlbumTrack where
  id : String
  name : String
  artists : List String
  artist : String
  album : String
  album_id : String
  duration_ms : Nat
  track_number : Nat
  external_url : String
  preview_url : Option String
  album_art : Option String
  release_date : String
deriving Repr, DecidableEq

/-- One page of an album track listing: its `items` and the truthiness of its
`next` continuation field (`page.get('next')`). -/
structure TracksPage where
  items : List AlbumTrackItem
  next : Bool
deriving Repr, DecidableEq

/-- The `client.album(album_id)` response as read by `get_album_details`. -/
structure AlbumResponse where
  id : String
  name : String
  artists : List ArtistObj
  images : List Image
  release_date : Option String
  total_tracks : Option Nat
  external_url : String
  tracks : TracksPage
deriving Repr, DecidableEq

/-- The record returned by `get_album_details`. -/
structure AlbumDetails where
  id : String
  name : String
  artist : String
  artists : List String
  release_date : String
  total_tracks : Nat
  album_art : Option String
  external_url : String
  tracks : List AlbumTrack
deriving Repr, DecidableEq

/-- The provider behaviour seen by one `get_album_details(album_id)` call:
the `client.album` response and, for each offset, the
`client.album_tracks(album_id, limit=50, offset=offset)` response. -/
structure AlbumProvider where
  album : Except String AlbumResponse
  album_tracks : Nat → Except String TracksPage

/-- Python truthiness of an optional string config value:
`not x` holds for `None` and for the empty string. -/
def pyFalsy : Option String → Bool
  | none => true
  | some s => s.isEmpty

/-- `SpotifyService.__init__`: raises `ValueError` when either credential is
falsy, otherwise constructs the client (the construction itself is delegated
to the external `spotipy` library and performs no provider request). -/
def SpotifyService.init (client_id client_secret : Option String) : Except String Unit :=
  if pyFalsy client_id || pyFalsy client_secret then
    Except.error "Spotify credentials not configured. Set SPOTIFY_CLIENT_ID and SPOTIFY_CLIENT_SECRET"
  else
    Except.ok ()

/-- The dict literal built per item in `search_tracks`. -/
def mkSearchTrack (item : TrackItem) : Track :=
  { id := item.id
    name := item.name
    artists := item.artists.map (fun a => a.name)
    artist := String.intercalate ", " (item.artists.map (fun a => a.name))
    album := item.album.name
    album_id := item.album.id
    duration_ms := item.duration_ms
    external_url := item.external_url
    preview_url := item.preview_url
    album_art := match item.album.images with
      | [] => none
      | img :: _ => some img.url
    release_date := item.album.release_date.getD "" }

/-- The keys of the dict literal in `search_tracks`, in source order. -/
def search_tracks_keys : List String :=
  ["id", "name", "artists", "artist", "album", "album_id", "duration_ms",
   "external_url", "preview_url", "album_art", "release_date"]

/-- `SpotifyService.search_tracks`: one catalog search call, then a
field-by-field mapping of `results['tracks']['items']`; a raised exception is
re-raised. -/
def search_tracks (query : String) (limit : Nat)
    (results : Except String (List TrackItem)) : Except String (List Track) :=
  match results with
  | Except.error e => Except.error e
  | Except.ok items => Except.ok (items.map mkSearchTrack)

/-- Lines printed by `search_tracks` (the `except` branch prints). -/
def search_tracks_log (results : Except String (List TrackItem)) : List String :=
  match results with
  | Except.error e => ["Spotify search error: " ++ e]
  | Except.ok _ => []

/-- The dict literal built by `get_track_details`. -/
def mkTrackDetails (track : TrackItem) : TrackDetails :=
  { id := track.id
    name := track.name
    artists := track.artists.map (fun a => a.name)
    artist := String.intercalate ", " (track.artists.map (fun a => a.name))
    album_artists := track.album.artists.map (fun a => a.name)
    album_artist := String.intercalate ", " (track.album.artists.map (fun a => a.name))
    album := track.album.name
    album_id := track.album.id
    duration_ms := track.duration_ms
    external_url := track.external_url
    preview_url := track.preview_url
    track_number := track.track_number.getD 1
    album_art := match track.album.images with
      | [] => none
      | img :: _ => some img.url
    release_date := track.album.release_date.getD "" }

/-- The keys of the dict literal in `get_track_details`, in source order. -/
def get_track_details_keys : List String :=
  ["id", "name", "artists", "artist", "album_artists", "album_artist", "album",
   "album_id", "duration_ms", "external_url", "preview_url", "track_number",
   "album_art", "release_date"]

/-- `SpotifyService.get_track_details`: returns the mapped record, or `None`
when the provider call raised. -/
def get_track_details (track_id : String)
    (resp : Except String TrackItem) : Option TrackDetails :=
  match resp with
  | Except.error _ => none
  | Except.ok track => some (mkTrackDetails track)

/-- Lines printed by `get_track_details`. -/
def get_track_details_log (resp : Except String TrackItem) : List String :=
  match resp with
  | Except.error e => ["Error fetching track details: " ++ e]
  | Except.ok _ => []

/-- The dict literal built per item in `search_albums`. -/
def mkSearchAlbum (item : AlbumItem) : Album :=
  { id := item.id
    name := item.name
    artist := String.intercalate ", " (item.artists.map (fun a => a.name))
    artists := item.artists.map (fun a => a.name)
    release_date := item.release_date.getD ""
    total_tracks := item.total_tracks.getD 0
    album_art := match item.images with
      | [] => none
      | img :: _ => some img.url
    external_url := item.external_url }

/-- `SpotifyService.search_albums`: one catalog search call of kind album,
field-by-field mapping; a raised exception is re-raised. -/
def search_albums (query : String) (limit : Nat)
    (results : Except String (List AlbumItem)) : Except String (List Album) :=
  match results with
  | Except.error e => Except.error e
  | Except.ok items => Except.ok (items.map mkSearchAlbum)

/-- Lines printed by `search_albums`. -/
def search_albums_log (results : Except String (List AlbumItem)) : List String :=
  match results with
  | Except.error e => ["Spotify album search error: " ++ e]
  | Except.ok _ => []

/-- The per-track dict literal in `get_album_details`: album-level fields are
taken from the parent `album` response. -/
def mkAlbumTrack (album : AlbumResponse) (item : AlbumTrackItem) : AlbumTrack :=
  { id := item.id
    name := item.name
    artists := item.artists.map (fun a => a.name)
    artist := String.intercalate ", " (item.artists.map (fun a => a.name))
    album := album.name
    album_id := album.id
    duration_ms := item.duration_ms
    track_number := item.track_number
    external_url := item.external_url
    preview_url := item.preview_url
    album_art := match album.images with
      | [] => none
      | img :: _ => some img.url
    release_date := album.release_date.getD "" }

/-- The `while True` pagination loop of `get_album_details`.  Returns the
accumulated track list and whether the safety-ceiling warning fired, or the
exception raised by a page fetch.  Loop body, in source order: fetch the page
at `offset`; break on an empty page; append the mapped items; break when the
page has no `next`; `offset += 50`; break with a warning when
`offset >= 1000`. -/
def paginate (fetch : Nat → Except String TracksPage)
    (mk : AlbumTrackItem → AlbumTrack) (offset : Nat) (acc : List AlbumTrack) :
    Except String (List AlbumTrack × Bool) :=
  match fetch offset with
  | Except.error e => Except.error e
  | Except.ok page =>
    if page.items.isEmpty then
      Except.ok (acc, false)
    else
      let acc2 := acc ++ page.items.map mk
      if page.next = false then
        Except.ok (acc2, false)
      else if 1000 ≤ offset + 50 then
        Except.ok (acc2, true)
      else
        paginate fetch mk (offset + 50) acc2
termination_by 1000 - offset
decreasing_by
  simp_wf
  omega

/-- The offsets at which the pagination loop issues `album_tracks` requests,
in order (mirrors `paginate`: the fetch at `offset` always happens; a further
fetch happens only in the branch that recurses). -/
def paginateReqs (fetch : Nat → Except String TracksPage) (offset : Nat) : List Nat :=
  match fetch offset with
  | Except.error _ => [offset]
  | Except.ok page =>
    if page.items.isEmpty then
      [offset]
    else if page.next = false then
      [offset]
    else if 1000 ≤ offset + 50 then
      [offset]
    else
      offset :: paginateReqs fetch (offset + 50)
termination_by 1000 - offset
decreasing_by
  simp_wf
  omega

/-- `SpotifyService.get_album_details`: fetch the album, map its embedded
first page of tracks, run the pagination loop when the first page has a
`next` continuation (starting at `offset = len(tracks)`), and build the album
record; any raised exception yields `None`. -/
def get_album_details (album_id : String) (p : AlbumProvider) : Option AlbumDetails :=
  match p.album with
  | Except.error _ => none
  | Except.ok album =>
    let firstTracks := album.tracks.items.map (mkAlbumTrack album)
    let offset := firstTracks.length
    let paged :=
      if album.tracks.next then
        paginate p.album_tracks (mkAlbumTrack album) offset firstTracks
      else
        Except.ok (firstTracks, false)
    match paged with
    | Except.error _ => none
    | Except.ok (tracks, _) =>
      some
        { id := album.id
          name := album.name
          artist := String.intercalate ", " (album.artists.map (fun a => a.name))
          artists := album.artists.map (fun a => a.name)
          release_date := album.release_date.getD ""
          total_tracks := album.total_tracks.getD 0
          album_art := match album.images with
            | [] => none
            | img :: _ => some img.url
          external_url := album.external_url
          tracks := tracks }

/-- The offsets at which `get_album_details` issues `album_tracks` requests:
none when the album fetch raised or the first page has no continuation. -/
def album_requests (p : AlbumProvider) : List Nat :=
  match p.album with
  | Except.error _ => []
  | Except.ok album =>
    if album.tracks.next then
      paginateReqs p.album_tracks album.tracks.items.length
    else
      []

/-- Lines printed by `get_album_details`: the pagination-ceiling warning
(when the loop stopped at the ceiling) or the exception message. -/
def get_album_details_log (album_id : String) (p : AlbumProvider) : List String :=
  match p.album with
  | Except.error e => ["Error fetching album details: " ++ e]
  | Except.ok album =>
    let firstTracks := album.tracks.items.map (mkAlbumTrack album)
    let paged :=
      if album.tracks.next then
        paginate p.album_tracks (mkAlbumTrack album) firstTracks.length firstTracks
      else
        Except.ok (firstTracks, false)
    match paged with
    | Except.error e => ["Error fetching album details: " ++ e]
    | Except.ok (_, warned) =>
      if warned then
        ["Warning: Stopped pagination at 1000 tracks for album " ++ album_id]
      else
        []

/-! Concrete fixtures used by witnesses. -/

/-- A concrete `item['album']` sub-object. -/
def dummyAlbumRef : AlbumRef :=
  { id := "alb1", name := "Album One", artists := [{ name := "Artist A" }],
    images := [{ url := "http://img/1" }], release_date := some "2020-01-01" }

/-- A concrete provider track item. -/
def dummyTrackItem : TrackItem :=
  { id := "t1", name := "Song", artists := [{ name := "Artist A" }],
    album := dummyAlbumRef, duration_ms := 200000,
    external_url := "http://sp/t1", preview_url := none, track_number := none }

/-- A concrete album track listing item. -/
def dummyAlbumTrackItem : AlbumTrackItem :=
  { id := "at1", name := "Song", artists := [{ name := "Artist A" }],
    duration_ms := 1000, track_number := 1,
    external_url := "http://sp/at1", preview_url := none }

/-- A concrete `client.album` response whose first page has no continuation. -/
def dummyAlbumResponse : AlbumResponse :=
  { id := "alb1", name := "Album One", artists := [{ name := "Artist A" }],
    images := [{ url := "http://img/1" }], release_date := some "2020-01-01",
    total_tracks := some 1, external_url := "http://sp/alb1",
    tracks := { items := [dummyAlbumTrackItem], next := false } }

/-- A concrete provider album item. -/
def dummyAlbumItem : AlbumItem :=
  { id := "alb1", name := "Album One", artists := [{ name := "Artist A" }],
    release_date := some "2020-01-01", total_tracks := some 10,
    images := [{ url := "http://img/1" }], external_url := "http://sp/alb1" }

/-! Helper lemmas. -/

theorem pyFalsy_iff (x : Option String) :
    pyFalsy x = true ↔ (x = none ∨ x = some "") := by
  cases x with
  | none => simp [pyFalsy]
  | some s =>
    simp only [pyFalsy, Option.some.injEq, reduceCtorEq, false_or]
    rw [String.isEmpty_iff]

/-- `paginate` propagates a raised page fetch. -/
theorem paginate_fetch_error (fetch : Nat → Except String TracksPage)
    (mk : AlbumTrackItem → AlbumTrack) (offset : Nat) (acc : List AlbumTrack)
    (e : String) (hf : fetch offset = Except.error e) :
    paginate fetch mk offset acc = Except.error e := by
  unfold paginate
  rw [hf]

/-- `paginate` stops, keeping the accumulator, on an empty page. -/
theorem paginate_fetch_empty (fetch : Nat → Except String TracksPage)
    (mk : AlbumTrackItem → AlbumTrack) (offset : Nat) (acc : List AlbumTrack)
    (page : TracksPage) (hf : fetch offset = Except.ok page)
    (he : page.items.isEmpty = true) :
    paginate fetch mk offset acc = Except.ok (acc, false) := by
  unfold paginate
  rw [hf]
  simp only [he, if_true]

/-- `paginate` stops after appending a page that has no continuation. -/
theorem paginate_last (fetch : Nat → Except String TracksPage)
    (mk : AlbumTrackItem → AlbumTrack) (offset : Nat) (acc : List AlbumTrack)
    (page : TracksPage) (hf : fetch offset = Except.ok page)
    (he : page.items.isEmpty = false) (hn : page.next = false) :
    paginate fetch mk offset acc = Except.ok (acc ++ page.items.map mk, false) := by
  unfold paginate
  rw [hf]
  simp only [he, hn, Bool.false_eq_true, if_false, if_true]

/-- `paginate` stops with the warning flag when the stepped offset reaches the
1000 ceiling. -/
theorem paginate_ceiling_hit (fetch : Nat → Except String TracksPage)
    (mk : AlbumTrackItem → AlbumTrack) (offset : Nat) (acc : List AlbumTrack)
    (page : TracksPage) (hf : fetch offset = Except.ok page)
    (he : page.items.isEmpty = false) (hn : page.next = true)
    (hc : 1000 ≤ offset + 50) :
    paginate fetch mk offset acc = Except.ok (acc ++ page.items.map mk, true) := by
  unfold paginate
  rw [hf]
  simp only [he, hn, Bool.false_eq_true, Bool.true_eq_false, if_false]
  rw [if_pos hc]

/-- `paginate` recurses at `offset + 50` after a non-final page below the
ceiling. -/
theorem paginate_step (fetch : Nat → Except String TracksPage)
    (mk : AlbumTrackItem → AlbumTrack) (offset : Nat) (acc : List AlbumTrack)
    (page : TracksPage) (hf : fetch offset = Except.ok page)
    (he : page.items.isEmpty = false) (hn : page.next = true)
    (hc : offset + 50 < 1000) :
    paginate fetch mk offset acc
      = paginate fetch mk (offset + 50) (acc ++ page.items.map mk) := by
  conv_lhs => unfold paginate
  rw [hf]
  simp only [he, hn, Bool.false_eq_true, Bool.true_eq_false, if_false]
  rw [if_neg (by omega)]

/-- `paginateReqs` records only the failing request when the fetch raises. -/
theorem paginateReqs_fetch_error (fetch : Nat → Except String TracksPage)
    (offset : Nat) (e : String) (hf : fetch offset = Except.error e) :
    paginateReqs fetch offset = [offset] := by
  unfold paginateReqs
  rw [hf]

/-- `paginateReqs` records one request for a stopping page. -/
theorem paginateReqs_stop (fetch : Nat → Except String TracksPage)
    (offset : Nat) (page : TracksPage) (hf : fetch offset = Except.ok page)
    (h : page.items.isEmpty = true ∨ page.next = false ∨ 1000 ≤ offset + 50) :
    paginateReqs fetch offset = [offset] := by
  unfold paginateReqs
  rw [hf]
  rcases h with he | hn | hc
  · simp [he]
  · simp [hn]
  · simp [hc]

/-- `paginateReqs` records the request then recurses for a non-final page
below the ceiling. -/
theorem paginateReqs_step (fetch : Nat → Except String TracksPage)
    (offset : Nat) (page : TracksPage) (hf : fetch offset = Except.ok page)
    (he : page.items.isEmpty = false) (hn : page.next = true)
    (hc : offset + 50 < 1000) :
    paginateReqs fetch offset = offset :: paginateReqs fetch (offset + 50) := by
  conv_lhs => unfold paginateReqs
  rw [hf]
  simp only [he, hn, Bool.false_eq_true, Bool.true_eq_false, if_false]
  rw [if_neg (by omega)]

/-- `get_album_details` when the album fetch raised. -/
theorem get_album_details_album_error (aid : String) (p : AlbumProvider) (e : String)
    (hal : p.album = Except.error e) : get_album_details aid p = none := by
  unfold get_album_details
  rw [hal]

/-- `get_album_details` when the album fetch succeeded and pagination (or its
absence) produced a track list. -/
theorem get_album_details_ok (aid : String) (p : AlbumProvider) (album : AlbumResponse)
    (tracks : List AlbumTrack) (w : Bool) (hal : p.album = Except.ok album)
    (hpg : (if album.tracks.next then
        paginate p.album_tracks (mkAlbumTrack album)
          (album.tracks.items.map (mkAlbumTrack album)).length
          (album.tracks.items.map (mkAlbumTrack album))
      else
        Except.ok (album.tracks.items.map (mkAlbumTrack album), false))
      = Except.ok (tracks, w)) :
    get_album_details aid p = some
      { id := album.id
        name := album.name
        artist := String.intercalate ", " (album.artists.map (fun a => a.name))
        artists := album.artists.map (fun a => a.name)
        release_date := album.release_date.getD ""
        total_tracks := album.total_tracks.getD 0
        album_art := match album.images with
          | [] => none
          | img :: _ => some img.url
        external_url := album.external_url
        tracks := tracks } := by
  unfold get_album_details
  rw [hal]
  dsimp only
  rw [hpg]

/-- `get_album_details` when the album fetch succeeded but a page fetch
raised during pagination. -/
theorem get_album_details_page_error (aid : String) (p : AlbumProvider)
    (album : AlbumResponse) (e : String) (hal : p.album = Except.ok album)
    (hpg : (if album.tracks.next then
        paginate p.album_tracks (mkAlbumTrack album)
          (album.tracks.items.map (mkAlbumTrack album)).length
          (album.tracks.items.map (mkAlbumTrack album))
      else
        Except.ok (album.tracks.items.map (mkAlbumTrack album), false))
      = Except.error e) :
    get_album_details aid p = none := by
  unfold get_album_details
  rw [hal]
  dsimp only
  rw [hpg]

/-- Every track accumulated by `paginate` is either already in the
accumulator or the image under `mk` of some fetched item. -/
theorem paginate_mem (fetch : Nat → Except String TracksPage)
    (mk : AlbumTrackItem → AlbumTrack) :
    ∀ (offset : Nat) (acc ts : List AlbumTrack) (w : Bool),
      paginate fetch mk offset acc = Except.ok (ts, w) →
      ∀ t ∈ ts, t ∈ acc ∨ ∃ item, t = mk item := by
  intro offset acc
  induction offset, acc using paginate.induct fetch mk with
  | case1 offset acc e hf =>
    intro ts w hp t ht
    rw [paginate_fetch_error fetch mk offset acc e hf] at hp
    exact absurd hp (by simp)
  | case2 offset acc page hf he =>
    intro ts w hp t ht
    rw [paginate_fetch_empty fetch mk offset acc page hf he] at hp
    simp only [Except.ok.injEq, Prod.mk.injEq] at hp
    rw [← hp.1] at ht
    exact Or.inl ht
  | case3 offset acc page hf he hn =>
    intro ts w hp t ht
    rw [paginate_last fetch mk offset acc page hf (by simpa using he) hn] at hp
    simp only [Except.ok.injEq, Prod.mk.injEq] at hp
    rw [← hp.1] at ht
    rcases List.mem_append.mp ht with h | h
    · exact Or.inl h
    · obtain ⟨item, _, rfl⟩ := List.mem_map.mp h
      exact Or.inr ⟨item, rfl⟩
  | case4 offset acc page hf he hn hc =>
    intro ts w hp t ht
    rw [paginate_ceiling_hit fetch mk offset acc page hf (by simpa using he)
      (by simpa using hn) hc] at hp
    simp only [Except.ok.injEq, Prod.mk.injEq] at hp
    rw [← hp.1] at ht
    rcases List.mem_append.mp ht with h | h
    · exact Or.inl h
    · obtain ⟨item, _, rfl⟩ := List.mem_map.mp h
      exact Or.inr ⟨item, rfl⟩
  | case5 offset acc page hf he acc2 hn hc ih =>
    intro ts w hp t ht
    rw [paginate_step fetch mk offset acc page hf (by simpa using he)
      (by simpa using hn) (by omega)] at hp
    rcases ih ts w hp t ht with h | h
    · rcases List.mem_append.mp h with h2 | h2
      · exact Or.inl h2
      · obtain ⟨item, _, rfl⟩ := List.mem_map.mp h2
        exact Or.inr ⟨item, rfl⟩
    · exact Or.inr h

/-- Characterization of a successful `get_album_details`: the album-level
fields come from the album response and every returned track is the
`mkAlbumTrack` image of some provider item. -/
theorem get_album_details_shape (aid : String) (p : AlbumProvider) (d : AlbumDetails)
    (h : get_album_details aid p = some d) :
    ∃ album, p.album = Except.ok album ∧
      d.id = album.id ∧ d.name = album.name ∧
      d.artist = String.intercalate ", " (album.artists.map (fun a => a.name)) ∧
      d.artists = album.artists.map (fun a => a.name) ∧
      d.release_date = album.release_date.getD "" ∧
      d.total_tracks = album.total_tracks.getD 0 ∧
      d.album_art = (match album.images with
        | [] => none
        | img :: _ => some img.url) ∧
      d.external_url = album.external_url ∧
      ∀ t ∈ d.tracks, ∃ item, t = mkAlbumTrack album item := by
  cases hal : p.album with
  | error e =>
    rw [get_album_details_album_error aid p e hal] at h
    exact absurd h (by simp)
  | ok album =>
    refine ⟨album, rfl, ?_⟩
    cases hpg : (if album.tracks.next then
        paginate p.album_tracks (mkAlbumTrack album)
          (album.tracks.items.map (mkAlbumTrack album)).length
          (album.tracks.items.map (mkAlbumTrack album))
      else
        Except.ok (album.tracks.items.map (mkAlbumTrack album), false)) with
    | error e =>
      rw [get_album_details_page_error aid p album e hal hpg] at h
      exact absurd h (by simp)
    | ok r =>
      obtain ⟨tracks, w⟩ := r
      rw [get_album_details_ok aid p album tracks w hal hpg] at h
      obtain rfl := Option.some.inj h
      refine ⟨rfl, rfl, rfl, rfl, rfl, rfl, rfl, rfl, ?_⟩
      intro t ht
      by_cases hb : album.tracks.next = true
      · rw [if_pos hb] at hpg
        rcases paginate_mem p.album_tracks (mkAlbumTrack album)
            (album.tracks.items.map (mkAlbumTrack album)).length
            (album.tracks.items.map (mkAlbumTrack album)) tracks w hpg t ht with hacc | hmk
        · obtain ⟨item, _, rfl⟩ := List.mem_map.mp hacc
          exact ⟨item, rfl⟩
        · exact hmk
      · rw [if_neg hb] at hpg
        simp only [Except.ok.injEq, Prod.mk.injEq] at hpg
        rw [← hpg.1] at ht
        obtain ⟨item, _, rfl⟩ := List.mem_map.mp ht
        exact ⟨item, rfl⟩

/-- The page a Spotify-like provider serves at `offset` for a full track list
`all` with page size 50: the 50-track window starting at `offset`, with a
continuation indicator exactly while tracks remain beyond the window. -/
def pageAt (all : List AlbumTrackItem) (off : Nat) : TracksPage :=
  { items := (all.drop off).take 50, next := decide (off + 50 < all.length) }

/-- A provider backed by the full track list `all`: the album response embeds
the page at offset 0 and declares `total_tracks = all.length`; `album_tracks`
serves the page at each requested offset. -/
def pagedProvider (a : AlbumResponse) (all : List AlbumTrackItem) : AlbumProvider :=
  { album := Except.ok { a with tracks := pageAt all 0, total_tracks := some all.length },
    album_tracks := fun off => Except.ok (pageAt all off) }

/-- Over a provider serving full 50-track windows of `all`, `paginate`
started at any offset strictly inside `all` collects exactly the tracks from
that offset on, without warning, provided `all` has at most 1000 tracks. -/
theorem paginate_pageAt (all : List AlbumTrackItem) (mk : AlbumTrackItem → AlbumTrack)
    (hlen : all.length ≤ 1000) :
    ∀ (off : Nat) (acc : List AlbumTrack), off < all.length →
      paginate (fun o => Except.ok (pageAt all o)) mk off acc
        = Except.ok (acc ++ (all.drop off).map mk, false) := by
  intro off acc
  induction off, acc using paginate.induct (fun o => Except.ok (pageAt all o)) mk with
  | case1 off acc e hf => exact absurd hf (by simp)
  | case2 off acc page hf he =>
    intro hoff
    obtain rfl : pageAt all off = page := Except.ok.inj hf
    exfalso
    have hl := congrArg List.length (List.isEmpty_iff.mp he)
    simp only [pageAt, List.length_take, List.length_drop, List.length_nil] at hl
    omega
  | case3 off acc page hf he hn =>
    intro hoff
    obtain rfl : pageAt all off = page := Except.ok.inj hf
    rw [paginate_last _ mk off acc _ rfl (by simpa using he) hn]
    have hle : all.length ≤ off + 50 := by
      have h2 := hn
      simp only [pageAt, decide_eq_false_iff_not, not_lt] at h2
      omega
    have hitems : (pageAt all off).items = all.drop off := by
      simp only [pageAt]
      exact List.take_of_length_le (by rw [List.length_drop]; omega)
    rw [hitems]
  | case4 off acc page hf he hn hc =>
    intro hoff
    obtain rfl : pageAt all off = page := Except.ok.inj hf
    exfalso
    have h2 : (pageAt all off).next = true := by simpa using hn
    simp only [pageAt, decide_eq_true_eq] at h2
    omega
  | case5 off acc page hf he acc2 hn hc ih =>
    intro hoff
    obtain rfl : pageAt all off = page := Except.ok.inj hf
    have h2 : (pageAt all off).next = true := by simpa using hn
    simp only [pageAt, decide_eq_true_eq] at h2
    rw [paginate_step _ mk off acc _ rfl (by simpa using he) (by simpa using hn) (by omega)]
    rw [ih h2]
    have key : (pageAt all off).items.map mk ++ (all.drop (off + 50)).map mk
        = (all.drop off).map mk := by
      rw [← List.map_append]
      congr 1
      rw [show all.drop (off + 50) = (all.drop off).drop 50 from
        (List.drop_drop 50 off all).symm]
      exact List.take_append_drop 50 (all.drop off)
    rw [List.append_assoc, key]

/-- Every request the pagination loop issues from a start offset below 1000
stays below 1000: the loop breaks before fetching once the stepped offset
reaches the ceiling. -/
theorem paginateReqs_bounded (fetch : Nat → Except String TracksPage) :
    ∀ off : Nat, off < 1000 → ∀ r ∈ paginateReqs fetch off, r < 1000 := by
  intro off
  induction off using paginateReqs.induct fetch with
  | case1 off e hf =>
    intro hoff r hr
    rw [paginateReqs_fetch_error fetch off e hf] at hr
    obtain rfl := List.mem_singleton.mp hr
    exact hoff
  | case2 off page hf he =>
    intro hoff r hr
    rw [paginateReqs_stop fetch off page hf (Or.inl he)] at hr
    obtain rfl := List.mem_singleton.mp hr
    exact hoff
  | case3 off page hf he hn =>
    intro hoff r hr
    rw [paginateReqs_stop fetch off page hf (Or.inr (Or.inl hn))] at hr
    obtain rfl := List.mem_singleton.mp hr
    exact hoff
  | case4 off page hf he hn hc =>
    intro hoff r hr
    rw [paginateReqs_stop fetch off page hf (Or.inr (Or.inr hc))] at hr
    obtain rfl := List.mem_singleton.mp hr
    exact hoff
  | case5 off page hf he hn hc ih =>
    intro hoff r hr
    rw [paginateReqs_step fetch off page hf (by simpa using he) (by simpa using hn)
      (by omega)] at hr
    rcases List.mem_cons.mp hr with rfl | hr2
    · exact hoff
    · exact ih (by omega) r hr2

/-- Against a provider that always returns a non-empty page with a
continuation indicator, `paginate` terminates with the warning flag set. -/
theorem paginate_always_next (fetch : Nat → Except String TracksPage)
    (mk : AlbumTrackItem → AlbumTrack)
    (hfetch : ∀ o, ∃ page, fetch o = Except.ok page ∧
      page.items ≠ [] ∧ page.next = true) :
    ∀ (off : Nat) (acc : List AlbumTrack),
      ∃ ts, paginate fetch mk off acc = Except.ok (ts, true) := by
  intro off acc
  induction off, acc using paginate.induct fetch mk with
  | case1 off acc e hf =>
    obtain ⟨page, hp, -, -⟩ := hfetch off
    rw [hf] at hp
    exact absurd hp (by simp)
  | case2 off acc page hf he =>
    obtain ⟨page2, hp, hne, -⟩ := hfetch off
    rw [hf] at hp
    obtain rfl := Except.ok.inj hp
    exact absurd (List.isEmpty_iff.mp he) hne
  | case3 off acc page hf he hn =>
    obtain ⟨page2, hp, -, hnx⟩ := hfetch off
    rw [hf] at hp
    obtain rfl := Except.ok.inj hp
    rw [hn] at hnx
    exact absurd hnx (by simp)
  | case4 off acc page hf he hn hc =>
    exact ⟨acc ++ page.items.map mk,
      paginate_ceiling_hit fetch mk off acc page hf (by simpa using he)
        (by simpa using hn) hc⟩
  | case5 off acc page hf he acc2 hn hc ih =>
    obtain ⟨ts, hts⟩ := ih
    refine ⟨ts, ?_⟩
    rw [paginate_step fetch mk off acc page hf (by simpa using he)
      (by simpa using hn) (by omega)]
    exact hts

/-- `album_requests` when the album fetch raised. -/
theorem album_requests_error (p : AlbumProvider) (e : String)
    (hal : p.album = Except.error e) : album_requests p = [] := by
  unfold album_requests
  rw [hal]

/-- `album_requests` when the album fetch succeeded. -/
theorem album_requests_ok (p : AlbumProvider) (album : AlbumResponse)
    (hal : p.album = Except.ok album) :
    album_requests p = if album.tracks.next then
        paginateReqs p.album_tracks album.tracks.items.length
      else [] := by
  unfold album_requests
  rw [hal]

/-- `get_album_details_log` when pagination completed: the warning line
exactly when the warning flag fired. -/
theorem get_album_details_log_ok (album_id : String) (p : AlbumProvider)
    (album : AlbumResponse) (tracks : List AlbumTrack) (w : Bool)
    (hal : p.album = Except.ok album)
    (hpg : (if album.tracks.next then
        paginate p.album_tracks (mkAlbumTrack album)
          (album.tracks.items.map (mkAlbumTrack album)).length
          (album.tracks.items.map (mkAlbumTrack album))
      else
        Except.ok (album.tracks.items.map (mkAlbumTrack album), false))
      = Except.ok (tracks, w)) :
    get_album_details_log album_id p = if w then
        ["Warning: Stopped pagination at 1000 tracks for album " ++ album_id]
      else [] := by
  unfold get_album_details_log
  rw [hal]
  dsimp only
  rw [hpg]

/-- The accumulator of `String.intercalate.go` is a prefix of its result, so
the result is at least as long. -/
theorem intercalate_go_length (s : String) :
    ∀ (t : List String) (acc : String),
      acc.length ≤ (String.intercalate.go acc s t).length := by
  intro t
  induction t with
  | nil =>
    intro acc
    simp [String.intercalate.go]
  | cons a as ih =>
    intro acc
    have h1 := ih (acc ++ s ++ a)
    have h2 : String.intercalate.go acc s (a :: as)
        = String.intercalate.go (acc ++ s ++ a) s as := by
      simp [String.intercalate.go]
    rw [h2]
    have h3 : acc.length ≤ (acc ++ s ++ a).length := by
      simp only [String.length_append]
      omega
    omega

/-- The comma-space join of a list of strings is empty exactly when the list
is empty or is the one-element list holding the empty string. -/
theorem intercalate_empty_iff (names : List String) :
    String.intercalate ", " names = "" ↔ names = [] ∨ names = [""] := by
  cases names with
  | nil => simp [String.intercalate]
  | cons a as =>
    cases as with
    | nil =>
      simp [String.intercalate, String.intercalate.go]
    | cons b bs =>
      have hgo : String.intercalate ", " (a :: b :: bs)
          = String.intercalate.go (a ++ ", " ++ b) ", " bs := by
        simp [String.intercalate, String.intercalate.go]
      constructor
      · intro hemp
        exfalso
        have hzero : (String.intercalate ", " (a :: b :: bs)).length = 0 := by
          rw [hemp]
          rfl
        rw [hgo] at hzero
        have hge := intercalate_go_length ", " bs (a ++ ", " ++ b)
        have hsep : (", " : String).length = 2 := rfl
        have hlen2 : (a ++ ", " ++ b).length = a.length + 2 + b.length := by
          simp only [String.length_append, hsep]
        omega
      · intro hd
        rcases hd with h1 | h1 <;> simp at h1

/-! Claim theorems. -/

/-- C4: constructing the service with a missing (`none`) or empty client id
or client secret raises the configuration `ValueError`; with both credentials
non-empty it succeeds.  The constructor model performs no provider request at
all (client construction is delegated to the external library), so the error
is raised before any network access. -/
theorem init_credentials_check (cid cs : Option String) :
    (SpotifyService.init cid cs = Except.ok () ↔
      ¬(cid = none ∨ cid = some "" ∨ cs = none ∨ cs = some "")) ∧
    ((cid = none ∨ cid = some "" ∨ cs = none ∨ cs = some "") →
      SpotifyService.init cid cs =
        Except.error "Spotify credentials not configured. Set SPOTIFY_CLIENT_ID and SPOTIFY_CLIENT_SECRET") := by
  have hiff : (pyFalsy cid || pyFalsy cs) = true ↔
      (cid = none ∨ cid = some "" ∨ cs = none ∨ cs = some "") := by
    rw [Bool.or_eq_true, pyFalsy_iff, pyFalsy_iff]
    tauto
  unfold SpotifyService.init
  by_cases h : (pyFalsy cid || pyFalsy cs) = true
  · rw [if_pos h]
    refine ⟨⟨fun habs => absurd habs (by simp), fun hne => absurd (hiff.mp h) hne⟩,
      fun _ => rfl⟩
  · rw [if_neg h]
    refine ⟨⟨fun _ => fun hd => h (hiff.mpr hd), fun _ => rfl⟩,
      fun hd => absurd (hiff.mpr hd) h⟩

/-- C4 witness: a missing client id yields the configuration error at a
concrete input. -/
theorem init_credentials_check_witness :
    SpotifyService.init none (some "secret") =
      Except.error "Spotify credentials not configured. Set SPOTIFY_CLIENT_ID and SPOTIFY_CLIENT_SECRET" :=
  (init_credentials_check none (some "secret")).2 (Or.inl rfl)

/-- C5: when the provider search call raises, `search_tracks` and
`search_albums` log the failure and re-raise the same exception; when it
succeeds they return normally (the mapped items). -/
theorem search_failures_reraise (q : String) (l : Nat) (e : String)
    (tItems : List TrackItem) (aItems : List AlbumItem) :
    search_tracks q l (Except.error e) = Except.error e ∧
    search_tracks_log (Except.error e) = ["Spotify search error: " ++ e] ∧
    search_albums q l (Except.error e) = Except.error e ∧
    search_albums_log (Except.error e) = ["Spotify album search error: " ++ e] ∧
    search_tracks q l (Except.ok tItems) = Except.ok (tItems.map mkSearchTrack) ∧
    search_tracks_log (Except.ok tItems) = [] ∧
    search_albums q l (Except.ok aItems) = Except.ok (aItems.map mkSearchAlbum) ∧
    search_albums_log (Except.ok aItems) = [] :=
  ⟨rfl, rfl, rfl, rfl, rfl, rfl, rfl, rfl⟩

/-- C3 (amended): the record returned by `get_track_details` carries a track
number that defaults to 1 when the provider item has none; the dict built per
item by `search_tracks` (keys transcribed in `search_tracks_keys`) carries no
track-number field at all. -/
theorem track_number_defaults_to_one (tid : String) (item : TrackItem) :
    (get_track_details tid (Except.ok item)).map (fun d => d.track_number)
        = some (item.track_number.getD 1) ∧
    "track_number" ∈ get_track_details_keys ∧
    "track_number" ∉ search_tracks_keys :=
  ⟨rfl, by decide, by decide⟩

/-- C3 witness: a concrete item without a track number maps to track number
1. -/
theorem track_number_defaults_to_one_witness :
    (get_track_details "t" (Except.ok dummyTrackItem)).map (fun d => d.track_number)
        = some (dummyTrackItem.track_number.getD 1) ∧
    "track_number" ∈ get_track_details_keys ∧
    "track_number" ∉ search_tracks_keys :=
  track_number_defaults_to_one "t" dummyTrackItem

/-- C3 counterexample: the dict literal built by `search_tracks` for every
provider item — its keys are transcribed, in source order, in
`search_tracks_keys` — contains no track-number field, so the records
returned by `search_tracks` carry no track number. -/
theorem search_tracks_lacks_track_number : "track_number" ∉ search_tracks_keys := by
  decide

/-- C6: when any underlying provider call raises, `get_track_details` and
`get_album_details` log the failure and return `none` instead of propagating
the exception — whether the raising call is the track fetch, the album fetch,
or a page fetch inside pagination. -/
theorem details_swallow_errors (tid aid e : String)
    (ft : Nat → Except String TracksPage) (album : AlbumResponse)
    (hnext : album.tracks.next = true)
    (herr : paginate ft (mkAlbumTrack album)
        (album.tracks.items.map (mkAlbumTrack album)).length
        (album.tracks.items.map (mkAlbumTrack album)) = Except.error e) :
    get_track_details tid (Except.error e) = none ∧
    get_track_details_log (Except.error e) = ["Error fetching track details: " ++ e] ∧
    get_album_details aid { album := Except.error e, album_tracks := ft } = none ∧
    get_album_details_log aid { album := Except.error e, album_tracks := ft }
        = ["Error fetching album details: " ++ e] ∧
    get_album_details aid { album := Except.ok album, album_tracks := ft } = none ∧
    get_album_details_log aid { album := Except.ok album, album_tracks := ft }
        = ["Error fetching album details: " ++ e] := by
  refine ⟨rfl, rfl, rfl, rfl, ?_, ?_⟩
  · exact get_album_details_page_error aid _ album e rfl (by rw [if_pos hnext]; exact herr)
  · unfold get_album_details_log
    dsimp only
    rw [if_pos hnext, herr]

/-- An album response whose embedded first page is empty but signals a
continuation, forcing one `album_tracks` request. -/
def c6Album : AlbumResponse :=
  { dummyAlbumResponse with tracks := { items := [], next := true } }

/-- C6 witness: a provider whose page fetch raises `boom` at a concrete
input. -/
theorem details_swallow_errors_witness :
    get_track_details "t" (Except.error "boom") = none ∧
    get_track_details_log (Except.error "boom") = ["Error fetching track details: " ++ "boom"] ∧
    get_album_details "a" { album := Except.error "boom", album_tracks := fun _ => Except.error "boom" } = none ∧
    get_album_details_log "a" { album := Except.error "boom", album_tracks := fun _ => Except.error "boom" }
        = ["Error fetching album details: " ++ "boom"] ∧
    get_album_details "a" { album := Except.ok c6Album, album_tracks := fun _ => Except.error "boom" } = none ∧
    get_album_details_log "a" { album := Except.ok c6Album, album_tracks := fun _ => Except.error "boom" }
        = ["Error fetching album details: " ++ "boom"] :=
  details_swallow_errors "t" "a" "boom" (fun _ => Except.error "boom") c6Album rfl
    (by unfold paginate; rfl)

/-- C9: every track in the sequence returned by `get_album_details` — those
of the embedded first page and those of paginated continuation pages alike —
carries the parent album record's name, id, album-art URL and release date. -/
theorem album_tracks_share_parent_fields (aid : String) (p : AlbumProvider)
    (d : AlbumDetails) (h : get_album_details aid p = some d) :
    ∀ t ∈ d.tracks, t.album = d.name ∧ t.album_id = d.id ∧
      t.album_art = d.album_art ∧ t.release_date = d.release_date := by
  intro t ht
  obtain ⟨album, -, hid, hname, -, -, hrel, -, hart, -, htr⟩ :=
    get_album_details_shape aid p d h
  obtain ⟨item, rfl⟩ := htr t ht
  refine ⟨?_, ?_, ?_, ?_⟩
  · rw [hname]; rfl
  · rw [hid]; rfl
  · rw [hart]; rfl
  · rw [hrel]; rfl

/-- A provider serving `dummyAlbumResponse` (single page, no continuation). -/
def wAlbumProvider : AlbumProvider :=
  { album := Except.ok dummyAlbumResponse,
    album_tracks := fun _ => Except.ok { items := [], next := false } }

/-- The record `get_album_details` builds from `wAlbumProvider`. -/
def wAlbumDetails : AlbumDetails :=
  { id := "alb1", name := "Album One", artist := "Artist A",
    artists := ["Artist A"], release_date := "2020-01-01", total_tracks := 1,
    album_art := some "http://img/1", external_url := "http://sp/alb1",
    tracks := [mkAlbumTrack dummyAlbumResponse dummyAlbumTrackItem] }

/-- C9 witness: the single returned track of a concrete album carries the
parent album's shared fields. -/
theorem album_tracks_share_parent_fields_witness :
    (mkAlbumTrack dummyAlbumResponse dummyAlbumTrackItem).album = wAlbumDetails.name ∧
    (mkAlbumTrack dummyAlbumResponse dummyAlbumTrackItem).album_id = wAlbumDetails.id ∧
    (mkAlbumTrack dummyAlbumResponse dummyAlbumTrackItem).album_art = wAlbumDetails.album_art ∧
    (mkAlbumTrack dummyAlbumResponse dummyAlbumTrackItem).release_date = wAlbumDetails.release_date :=
  album_tracks_share_parent_fields "a" wAlbumProvider wAlbumDetails (by decide)
    (mkAlbumTrack dummyAlbumResponse dummyAlbumTrackItem) (by decide)

/-- C1 (amended): for an album backed by a full track list of more than 50
tracks, over a provider that serves the *full* 50-track window at each
requested offset (continuation indicator exactly while tracks remain beyond
the window), `get_album_details` returns a track sequence whose length equals
the declared `total_tracks`; the `all.length ≤ 1000` bound is exactly
"pagination does not abort at the safety ceiling" for this provider. -/
theorem get_album_details_complete_tracks (aid : String) (a : AlbumResponse)
    (all : List AlbumTrackItem) (h50 : 50 < all.length) (hceil : all.length ≤ 1000) :
    (get_album_details aid (pagedProvider a all)).map (fun d => d.tracks.length)
        = some all.length ∧
    (get_album_details aid (pagedProvider a all)).map (fun d => d.total_tracks)
        = some all.length := by
  set album : AlbumResponse :=
    { a with tracks := pageAt all 0, total_tracks := some all.length } with halbum
  have hal : (pagedProvider a all).album = Except.ok album := rfl
  have hnext : album.tracks.next = true := by
    simp only [halbum, pageAt, decide_eq_true_eq]
    omega
  have hflen : (album.tracks.items.map (mkAlbumTrack album)).length = 50 := by
    simp only [halbum, pageAt, List.drop_zero, List.length_map, List.length_take]
    omega
  have hpg := paginate_pageAt all (mkAlbumTrack album) hceil 50
    (album.tracks.items.map (mkAlbumTrack album)) h50
  have hd := get_album_details_ok aid (pagedProvider a all) album _ false hal
    (by rw [if_pos hnext, hflen]; exact hpg)
  rw [hd]
  constructor
  · simp only [Option.map_some', Option.some.injEq]
    simp only [halbum, pageAt, List.drop_zero, List.length_append, List.length_map,
      List.length_take, List.length_drop]
    omega
  · simp only [Option.map_some', Option.some.injEq]
    simp [halbum]

/-- C1 witness: a 60-track album over the full-page provider yields all 60
tracks. -/
theorem get_album_details_complete_tracks_witness :
    (get_album_details "x" (pagedProvider dummyAlbumResponse
        (List.replicate 60 dummyAlbumTrackItem))).map (fun d => d.tracks.length)
      = some (List.replicate 60 dummyAlbumTrackItem).length ∧
    (get_album_details "x" (pagedProvider dummyAlbumResponse
        (List.replicate 60 dummyAlbumTrackItem))).map (fun d => d.total_tracks)
      = some (List.replicate 60 dummyAlbumTrackItem).length :=
  get_album_details_complete_tracks "x" dummyAlbumResponse
    (List.replicate 60 dummyAlbumTrackItem) (by simp) (by simp)

/-- The page a provider with page size 30 serves at `offset`: such a provider
still serves "pages of at most 50 tracks at the requested offsets", and its
continuation indicator is present exactly while tracks remain beyond the
served window. -/
def shortPage (all : List AlbumTrackItem) (off : Nat) : TracksPage :=
  { items := (all.drop off).take 30, next := decide (off + 30 < all.length) }

/-- A 90-track album list. -/
def c1All : List AlbumTrackItem := List.replicate 90 dummyAlbumTrackItem

/-- The album response of the short-page provider: embeds the 30-track page
at offset 0 and declares `total_tracks = 90`. -/
def c1AlbumResp : AlbumResponse :=
  { dummyAlbumResponse with tracks := shortPage c1All 0, total_tracks := some c1All.length }

/-- The short-page provider: pages of at most 50 (in fact 30) tracks at the
requested offsets, declared total 90 (> 50), no pagination abort at the
ceiling. -/
def c1Provider : AlbumProvider :=
  { album := Except.ok c1AlbumResp,
    album_tracks := fun off => Except.ok (shortPage c1All off) }

/-- C1 counterexample: with the short-page provider (pages of at most 50
tracks at the requested offsets, continuation exactly while tracks remain
beyond each served window, declared total 90 > 50, no ceiling abort) the code
returns only 70 of the 90 declared tracks: after the 30-track first page the
loop fetches at offset 30 but then jumps by the fixed step 50 to offset 80,
never fetching tracks 60–79. -/
theorem get_album_details_short_pages :
    (get_album_details "a" c1Provider).map (fun d => (d.tracks.length, d.total_tracks))
      = some (70, 90) := by
  have hal : c1Provider.album = Except.ok c1AlbumResp := rfl
  have hnext : c1AlbumResp.tracks.next = true := by decide
  have hflen : (c1AlbumResp.tracks.items.map (mkAlbumTrack c1AlbumResp)).length = 30 := by
    decide
  have hs1 := paginate_step c1Provider.album_tracks (mkAlbumTrack c1AlbumResp) 30
    (c1AlbumResp.tracks.items.map (mkAlbumTrack c1AlbumResp)) (shortPage c1All 30)
    rfl (by decide) (by decide) (by omega)
  have hs2 := paginate_last c1Provider.album_tracks (mkAlbumTrack c1AlbumResp) 80
    (c1AlbumResp.tracks.items.map (mkAlbumTrack c1AlbumResp)
      ++ (shortPage c1All 30).items.map (mkAlbumTrack c1AlbumResp))
    (shortPage c1All 80) rfl (by decide) (by decide)
  have hd := get_album_details_ok "a" c1Provider c1AlbumResp _ false hal
    (by rw [if_pos hnext, hflen, hs1, hs2])
  rw [hd]
  decide

/-- C2 (amended): provided the album's embedded first page holds fewer than
1000 items (as with any provider serving pages of at most 50 tracks), every
`album_tracks` request the pagination loop issues has offset < 1000; and
against a provider that always reports a continuation indicator with a
non-empty page, `get_album_details` terminates, returning a record and
emitting exactly the ceiling warning. -/
theorem pagination_offset_ceiling (album_id : String) (p : AlbumProvider)
    (hfirst : ∀ album, p.album = Except.ok album → album.tracks.items.length < 1000) :
    (∀ r ∈ album_requests p, r < 1000) ∧
    ((∀ o, ∃ page, p.album_tracks o = Except.ok page ∧
        page.items ≠ [] ∧ page.next = true) →
      ∀ album, p.album = Except.ok album → album.tracks.next = true →
        (get_album_details album_id p).isSome = true ∧
        get_album_details_log album_id p
          = ["Warning: Stopped pagination at 1000 tracks for album " ++ album_id]) := by
  constructor
  · intro r hr
    cases hal : p.album with
    | error e =>
      rw [album_requests_error p e hal] at hr
      exact absurd hr (by simp)
    | ok album =>
      rw [album_requests_ok p album hal] at hr
      by_cases hb : album.tracks.next = true
      · rw [if_pos hb] at hr
        exact paginateReqs_bounded p.album_tracks album.tracks.items.length
          (hfirst album hal) r hr
      · rw [if_neg hb] at hr
        exact absurd hr (by simp)
  · intro hprov album hal hnext
    obtain ⟨ts, hts⟩ := paginate_always_next p.album_tracks (mkAlbumTrack album) hprov
      (album.tracks.items.map (mkAlbumTrack album)).length
      (album.tracks.items.map (mkAlbumTrack album))
    constructor
    · rw [get_album_details_ok album_id p album ts true hal (by rw [if_pos hnext]; exact hts)]
      rfl
    · rw [get_album_details_log_ok album_id p album ts true hal
        (by rw [if_pos hnext]; exact hts)]
      rfl

/-- An album response whose embedded first page holds 1000 items and signals
a continuation. -/
def c2Album : AlbumResponse :=
  { dummyAlbumResponse with
    tracks := { items := List.replicate 1000 dummyAlbumTrackItem, next := true } }

/-- A provider serving that album; its page endpoint returns an empty final
page. -/
def c2Provider : AlbumProvider :=
  { album := Except.ok c2Album,
    album_tracks := fun _ => Except.ok { items := [], next := false } }

/-- C2 counterexample: the claim quantifies over *every* provider behaviour,
but the first request of the pagination loop is issued before any ceiling
check, at `offset = len(first page)`; with a 1000-item embedded first page
the loop issues a request at offset 1000 ≥ 1000. -/
theorem album_requests_reach_1000 : 1000 ∈ album_requests c2Provider := by
  rw [album_requests_ok c2Provider c2Album rfl, if_pos (show c2Album.tracks.next = true from rfl)]
  have hlen : c2Album.tracks.items.length = 1000 := by
    show (List.replicate 1000 dummyAlbumTrackItem).length = 1000
    rw [List.length_replicate]
  rw [hlen]
  rw [paginateReqs_stop c2Provider.album_tracks 1000 { items := [], next := false }
    rfl (Or.inl (by decide))]
  exact List.mem_singleton.mpr rfl

/-- An album response with an empty first page that signals a continuation. -/
def c2wAlbum : AlbumResponse :=
  { dummyAlbumResponse with tracks := { items := [], next := true } }

/-- A provider that always returns a non-empty continuing page. -/
def c2wProvider : AlbumProvider :=
  { album := Except.ok c2wAlbum,
    album_tracks := fun _ => Except.ok { items := [dummyAlbumTrackItem], next := true } }

/-- C2 witness: against the always-continuing provider, `get_album_details`
returns a record and logs exactly the ceiling warning. -/
theorem pagination_offset_ceiling_witness :
    (get_album_details "w" c2wProvider).isSome = true ∧
    get_album_details_log "w" c2wProvider
      = ["Warning: Stopped pagination at 1000 tracks for album " ++ "w"] :=
  (pagination_offset_ceiling "w" c2wProvider
      (by intro album h; obtain rfl := Except.ok.inj h; decide)).2
    (fun o => ⟨{ items := [dummyAlbumTrackItem], next := true }, rfl, by decide, rfl⟩)
    c2wAlbum rfl rfl

/-- C7: in every record produced by the four operations, the album-art field
is the URL of the first element of the relevant provider image list when that
list is non-empty, and `none` when it is empty (the searches and
`get_track_details` read the image list of the item's album object;
`get_album_details` reads the album response's image list, for the album
record and for every track record). -/
theorem album_art_is_first_image (q tid aid : String) (l : Nat)
    (tItems : List TrackItem) (aItems : List AlbumItem)
    (p : AlbumProvider) (d : AlbumDetails)
    (hd : get_album_details aid p = some d) :
    (search_tracks q l (Except.ok tItems) = Except.ok (tItems.map mkSearchTrack) ∧
      ∀ it ∈ tItems,
        (it.album.images = [] → (mkSearchTrack it).album_art = none) ∧
        ∀ img rest, it.album.images = img :: rest →
          (mkSearchTrack it).album_art = some img.url) ∧
    (∀ it : TrackItem,
      get_track_details tid (Except.ok it) = some (mkTrackDetails it) ∧
      (it.album.images = [] → (mkTrackDetails it).album_art = none) ∧
      ∀ img rest, it.album.images = img :: rest →
        (mkTrackDetails it).album_art = some img.url) ∧
    (search_albums q l (Except.ok aItems) = Except.ok (aItems.map mkSearchAlbum) ∧
      ∀ it ∈ aItems,
        (it.images = [] → (mkSearchAlbum it).album_art = none) ∧
        ∀ img rest, it.images = img :: rest →
          (mkSearchAlbum it).album_art = some img.url) ∧
    (∃ album, p.album = Except.ok album ∧
      (album.images = [] → d.album_art = none) ∧
      (∀ img rest, album.images = img :: rest → d.album_art = some img.url) ∧
      ∀ t ∈ d.tracks, t.album_art = d.album_art) := by
  refine ⟨⟨rfl, ?_⟩, ?_, ⟨rfl, ?_⟩, ?_⟩
  · intro it _
    exact ⟨fun h => by simp [mkSearchTrack, h],
      fun img rest h => by simp [mkSearchTrack, h]⟩
  · intro it
    exact ⟨rfl, fun h => by simp [mkTrackDetails, h],
      fun img rest h => by simp [mkTrackDetails, h]⟩
  · intro it _
    exact ⟨fun h => by simp [mkSearchAlbum, h],
      fun img rest h => by simp [mkSearchAlbum, h]⟩
  · obtain ⟨album, halb, -, -, -, -, -, -, hart, -, htr⟩ :=
      get_album_details_shape aid p d hd
    refine ⟨album, halb, ?_, ?_, ?_⟩
    · intro h
      rw [hart, h]
    · intro img rest h
      rw [hart, h]
    · intro t ht
      obtain ⟨item, rfl⟩ := htr t ht
      rw [hart]
      rfl

/-- C7 witness: concrete records from each of the four operations, all built
over a one-image provider image list, have that image's URL as album art. -/
theorem album_art_is_first_image_witness :
    (mkSearchTrack dummyTrackItem).album_art = some "http://img/1" ∧
    (mkTrackDetails dummyTrackItem).album_art = some "http://img/1" ∧
    (mkSearchAlbum dummyAlbumItem).album_art = some "http://img/1" ∧
    wAlbumDetails.album_art = some "http://img/1" ∧
    (mkAlbumTrack dummyAlbumResponse dummyAlbumTrackItem).album_art
      = wAlbumDetails.album_art := by
  have H := album_art_is_first_image "q" "t" "a" 20 [dummyTrackItem] [dummyAlbumItem]
    wAlbumProvider wAlbumDetails (by decide)
  refine ⟨?_, ?_, ?_, ?_, ?_⟩
  · exact (H.1.2 dummyTrackItem (by simp)).2 { url := "http://img/1" } [] rfl
  · exact (H.2.1 dummyTrackItem).2.2 { url := "http://img/1" } [] rfl
  · exact (H.2.2.1.2 dummyAlbumItem (by simp)).2 { url := "http://img/1" } [] rfl
  · obtain ⟨album, halb, -, hcons, -⟩ := H.2.2.2
    obtain rfl : dummyAlbumResponse = album := Except.ok.inj halb
    exact hcons { url := "http://img/1" } [] rfl
  · obtain ⟨album, halb, -, -, htr⟩ := H.2.2.2
    obtain rfl : dummyAlbumResponse = album := Except.ok.inj halb
    exact htr (mkAlbumTrack dummyAlbumResponse dummyAlbumTrackItem) (by decide)

/-- C8: assuming the provider returns at most `N` items for a search with
limit `N`, `search_tracks` returns exactly one record per provider item, in
provider order (the map), hence a sequence of length at most `N`. -/
theorem search_tracks_respects_limit (q : String) (N : Nat) (items : List TrackItem)
    (h : items.length ≤ N) :
    search_tracks q N (Except.ok items) = Except.ok (items.map mkSearchTrack) ∧
    (items.map mkSearchTrack).length = items.length ∧
    (items.map mkSearchTrack).length ≤ N :=
  ⟨rfl, List.length_map items mkSearchTrack, by simpa using h⟩

/-- C8 witness: a concrete two-item search with limit 5. -/
theorem search_tracks_respects_limit_witness :
    search_tracks "imagine" 5 (Except.ok [dummyTrackItem, dummyTrackItem])
        = Except.ok ([dummyTrackItem, dummyTrackItem].map mkSearchTrack) ∧
    ([dummyTrackItem, dummyTrackItem].map mkSearchTrack).length = 2 ∧
    ([dummyTrackItem, dummyTrackItem].map mkSearchTrack).length ≤ 5 :=
  search_tracks_respects_limit "imagine" 5 [dummyTrackItem, dummyTrackItem] (by decide)

/-- C10 (amended): in every record built by the four operations the
denormalized artist string equals the comma-space join of the record's
artists list (likewise `album_artist` and `album_artists` in
`get_track_details`, and the album record of `get_album_details`).  The
joined string is empty exactly when the list is empty *or is the single
empty name*; in particular, for artist lists with non-empty names, the join
is empty exactly when the list is empty. -/
theorem artist_join (item : TrackItem) (aitem : AlbumItem) (album : AlbumResponse)
    (it : AlbumTrackItem) (aid : String) (p : AlbumProvider) (d : AlbumDetails)
    (names : List String) (hd : get_album_details aid p = some d) :
    (mkSearchTrack item).artist = String.intercalate ", " (mkSearchTrack item).artists ∧
    (mkTrackDetails item).artist = String.intercalate ", " (mkTrackDetails item).artists ∧
    (mkTrackDetails item).album_artist
      = String.intercalate ", " (mkTrackDetails item).album_artists ∧
    (mkSearchAlbum aitem).artist = String.intercalate ", " (mkSearchAlbum aitem).artists ∧
    (mkAlbumTrack album it).artist
      = String.intercalate ", " (mkAlbumTrack album it).artists ∧
    d.artist = String.intercalate ", " d.artists ∧
    (String.intercalate ", " names = "" ↔ names = [] ∨ names = [""]) := by
  obtain ⟨album2, -, -, -, hartist, hartists, -, -, -, -, -⟩ :=
    get_album_details_shape aid p d hd
  exact ⟨rfl, rfl, rfl, rfl, rfl, by rw [hartist, hartists],
    intercalate_empty_iff names⟩

/-- C10 witness: concrete records over a one-artist provider item. -/
theorem artist_join_witness :
    (mkSearchTrack dummyTrackItem).artist
      = String.intercalate ", " (mkSearchTrack dummyTrackItem).artists ∧
    (mkTrackDetails dummyTrackItem).artist
      = String.intercalate ", " (mkTrackDetails dummyTrackItem).artists ∧
    (mkTrackDetails dummyTrackItem).album_artist
      = String.intercalate ", " (mkTrackDetails dummyTrackItem).album_artists ∧
    (mkSearchAlbum dummyAlbumItem).artist
      = String.intercalate ", " (mkSearchAlbum dummyAlbumItem).artists ∧
    (mkAlbumTrack dummyAlbumResponse dummyAlbumTrackItem).artist
      = String.intercalate ", " (mkAlbumTrack dummyAlbumResponse dummyAlbumTrackItem).artists ∧
    wAlbumDetails.artist = String.intercalate ", " wAlbumDetails.artists ∧
    (String.intercalate ", " ["Artist A"] = ""
      ↔ ["Artist A"] = ([] : List String) ∨ ["Artist A"] = [""]) :=
  artist_join dummyTrackItem dummyAlbumItem dummyAlbumResponse dummyAlbumTrackItem
    "a" wAlbumProvider wAlbumDetails ["Artist A"] (by decide)

/-- A provider track item whose single artist has the empty name. -/
def emptyNameItem : TrackItem := { dummyTrackItem with artists := [{ name := "" }] }

/-- C10 counterexample: the record `search_tracks` builds for a provider item
whose single artist name is empty has an empty joined artist string while its
artists list is non-empty, refuting "the joined string is empty exactly when
the artist list is empty". -/
theorem artist_join_empty_name :
    search_tracks "q" 20 (Except.ok [emptyNameItem])
        = Except.ok [mkSearchTrack emptyNameItem] ∧
    (mkSearchTrack emptyNameItem).artist = "" ∧
    (mkSearchTrack emptyNameItem).artists ≠ [] :=
  ⟨rfl, rfl, by decide⟩

end Spotify
